import Mathlib

set_option maxHeartbeats 1000000

/-
Shallow embedding of the JVMTI environment façade
(`src/environment/jvmti.rs`) and of the collaborating modules it drives.
Only the façade source is available; the leaf modules (error translation,
capability conversion, version decoding, string decoding, the event-handler
registry) are modelled from the specification, as marked on each definition.
The native instrumentation interface is external: each native function
pointer is modelled as an optional slot carrying the behaviour the native
side would exhibit on the call in question (status codes returned, data
written through out-parameters).  An absent slot models a null function
pointer; an operation that `unwrap`s an absent slot is modelled as
returning `none` (the panic has no value).
-/

namespace Jvmti

/-- Modelled from the spec: the error-translation module (`src/error.rs`) is
not part of the available source.  Per spec §3/§7, `NativeError` is a closed
enumeration of native status codes with `NoError` as the distinguished
success sentinel and a catch-all variant for unrecognized codes, carrying no
payload beyond the kind. -/
inductive NativeError where
  | NoError
  | NotAvailable
  | MustPossessCapability
  | NullPointer
  | OutOfMemory
  | WrongPhase
  | Internal
  | UnattachedThread
  | Disconnected
  | UnknownError
deriving DecidableEq

/-- Modelled from the spec (§4.1): `wrap_error` maps `0` to `NoError`, every
other defined code to its named variant, and any unrecognized code to the
catch-all variant; it is a total function with no side effects. -/
def wrap_error (code : Int) : NativeError :=
  if code = 0 then .NoError
  else if code = 98 then .NotAvailable
  else if code = 99 then .MustPossessCapability
  else if code = 100 then .NullPointer
  else if code = 110 then .OutOfMemory
  else if code = 112 then .WrongPhase
  else if code = 113 then .Internal
  else if code = 115 then .UnattachedThread
  else if code = 116 then .Disconnected
  else .UnknownError

/-- The status codes `wrap_error` recognizes, paired with their variants. -/
def definedCodePairs : List (Int × NativeError) :=
  [(0, .NoError), (98, .NotAvailable), (99, .MustPossessCapability),
   (100, .NullPointer), (110, .OutOfMemory), (112, .WrongPhase),
   (113, .Internal), (115, .UnattachedThread), (116, .Disconnected)]

/-- The status codes with a named translation (including the success code). -/
def definedCodes : List Int := definedCodePairs.map Prod.fst

/-- Modelled from the spec: the capability module (`src/capabilities.rs`) is
not part of the available source.  Per spec §3, a capability set is a fixed
family of independently togglable named boolean flags, one per bit position
of the native bitfield struct; the model indexes the flags by bit position. -/
def numCapFlags : Nat := 34

/-- Modelled from the spec (§3): the typed, memory-safe capability
representation — one boolean per defined native bit. -/
structure Capabilities where
  flags : Fin numCapFlags → Bool

/-- The native fixed-layout capability bitfield, viewed as its bit pattern. -/
abbrev jvmtiCapabilities := Nat

/-- Little-endian packing of a list of booleans into a bit pattern. -/
def packBits : List Bool → Nat
  | [] => 0
  | b :: bs => (if b then 1 else 0) + 2 * packBits bs

/-- Modelled from the spec (§4.2): `to_native` writes each named boolean into
its corresponding bit position; unspecified/reserved bits are zero. -/
def Capabilities.to_native (caps : Capabilities) : jvmtiCapabilities :=
  packBits (List.ofFn caps.flags)

/-- Modelled from the spec (§4.2): `from_native` reads each bit position back
into the named boolean set. -/
def Capabilities.from_native (native : jvmtiCapabilities) : Capabilities :=
  ⟨fun i => native.testBit i.val⟩

/-- Modelled from the spec (§3): capability sets are constructed with all
flags false. -/
def Capabilities.new : Capabilities := ⟨fun _ => false⟩

/-- Modelled from the spec: the version module (`src/version.rs`) is not part
of the available source.  Per spec §3, an immutable value object with major,
minor and micro integer components. -/
structure VersionNumber where
  major : Nat
  minor : Nat
  micro : Nat
deriving DecidableEq

/-- Modelled from the spec (§4.3): decodes a packed 32-bit version word using
the documented shift/mask protocol constants; pure, total, unvalidated. -/
def VersionNumber.from_u32 (version : Nat) : VersionNumber :=
  { major := (version >>> 16) &&& 0xFFF
    minor := (version >>> 8) &&& 0xFF
    micro := version &&& 0xFF }

/-- The `as u32` reinterpretation of a native 32-bit signed value. -/
def u32_of_i32 (w : Int) : Nat := (w % (2 ^ 32 : Int)).toNat

/-- An opaque native object handle (a raw pointer value). -/
abbrev JavaObject := Nat

/-- An opaque native thread handle (a raw pointer value). -/
abbrev JavaThread := Nat

/-- `ThreadId` wraps the native-level thread handle. -/
structure ThreadId where
  native_id : JavaThread
deriving DecidableEq

/-- A snapshot value for one thread: id, owned name, priority, daemon flag. -/
structure Thread where
  id : ThreadId
  name : String
  priority : Nat
  is_daemon : Bool
deriving DecidableEq

/-- The native thread-info record written by `GetThreadInfo`: a raw name
buffer (absent models a null pointer), a signed priority, an unsigned daemon
flag and two further handles. -/
structure Struct__jvmtiThreadInfo where
  name : Option String
  priority : Int
  is_daemon : Nat
  thread_group : JavaObject
  context_class_loader : JavaObject

/-- Modelled from the spec: `util::stringify` is not part of the available
source.  Per spec §4.4/§9, the raw name buffer is decoded eagerly into an
owned string and an empty or absent (null) buffer decodes to the empty
string, never a null dereference. -/
def stringify (raw : Option String) : String :=
  match raw with
  | some s => s
  | none => ""

/-- The event kinds the native interface can emit; one variant per callback
slot of the configuration consumed by `set_event_callbacks`. -/
inductive VMEvent where
  | VMInit
  | VMStart
  | VMDeath
  | VMObjectAlloc
  | MethodEntry
  | MethodExit
  | ThreadStart
  | ThreadEnd
  | Exception
  | ExceptionCatch
  | MonitorWait
  | MonitorWaited
  | MonitorContendedEnter
  | MonitorContendedEntered
  | FieldAccess
  | FieldModification
  | GarbageCollectionStart
  | GarbageCollectionFinish
deriving DecidableEq

/-- The configuration struct enumerating every supported event kind's
optional handler (absent = no callback), as passed to
`set_event_callbacks`.  Handler payloads are abstracted by the type `H`. -/
structure EventCallbacks (H : Type) where
  vm_init : Option H
  vm_start : Option H
  vm_death : Option H
  vm_object_alloc : Option H
  method_entry : Option H
  method_exit : Option H
  thread_start : Option H
  thread_end : Option H
  exception : Option H
  exception_catch : Option H
  monitor_wait : Option H
  monitor_waited : Option H
  monitor_contended_enter : Option H
  monitor_contended_entered : Option H
  field_access : Option H
  field_modification : Option H
  garbage_collection_start : Option H
  garbage_collection_finish : Option H

/-- Modelled from the spec: the event-handler registry
(`src/event_handler.rs`) is not part of the available source.  Per spec
§4.5, the registry is a process-wide table with one optional handler slot
per event kind. -/
structure CallbackSlots (H : Type) where
  vm_init : Option H
  vm_start : Option H
  vm_death : Option H
  vm_object_alloc : Option H
  method_entry : Option H
  method_exit : Option H
  thread_start : Option H
  thread_end : Option H
  exception : Option H
  exception_catch : Option H
  monitor_wait : Option H
  monitor_waited : Option H
  monitor_contended_enter : Option H
  monitor_contended_entered : Option H
  field_access : Option H
  field_modification : Option H
  garbage_collection_start : Option H
  garbage_collection_finish : Option H

/-- Modelled from the spec (§4.5): each `register_*` function stores the
supplied optional handler into its event kind's process-wide slot,
unconditionally overwriting whatever was previously registered there. -/
def register_vm_init_callback {H : Type} (s : CallbackSlots H) (h : Option H) : CallbackSlots H :=
  { s with vm_init := h }

/-- Modelled from the spec (§4.5): see `register_vm_init_callback`. -/
def register_vm_start_callback {H : Type} (s : CallbackSlots H) (h : Option H) : CallbackSlots H :=
  { s with vm_start := h }

/-- Modelled from the spec (§4.5): see `register_vm_init_callback`. -/
def register_vm_death_callback {H : Type} (s : CallbackSlots H) (h : Option H) : CallbackSlots H :=
  { s with vm_death := h }

/-- Modelled from the spec (§4.5): see `register_vm_init_callback`. -/
def register_vm_object_alloc_callback {H : Type} (s : CallbackSlots H) (h : Option H) : CallbackSlots H :=
  { s with vm_object_alloc := h }

/-- Modelled from the spec (§4.5): see `register_vm_init_callback`. -/
def register_method_entry_callback {H : Type} (s : CallbackSlots H) (h : Option H) : CallbackSlots H :=
  { s with method_entry := h }

/-- Modelled from the spec (§4.5): see `register_vm_init_callback`. -/
def register_method_exit_callback {H : Type} (s : CallbackSlots H) (h : Option H) : CallbackSlots H :=
  { s with method_exit := h }

/-- Modelled from the spec (§4.5): see `register_vm_init_callback`. -/
def register_thread_start_callback {H : Type} (s : CallbackSlots H) (h : Option H) : CallbackSlots H :=
  { s with thread_start := h }

/-- Modelled from the spec (§4.5): see `register_vm_init_callback`. -/
def register_thread_end_callback {H : Type} (s : CallbackSlots H) (h : Option H) : CallbackSlots H :=
  { s with thread_end := h }

/-- Modelled from the spec (§4.5): see `register_vm_init_callback`. -/
def register_exception_callback {H : Type} (s : CallbackSlots H) (h : Option H) : CallbackSlots H :=
  { s with exception := h }

/-- Modelled from the spec (§4.5): see `register_vm_init_callback`. -/
def register_exception_catch_callback {H : Type} (s : CallbackSlots H) (h : Option H) : CallbackSlots H :=
  { s with exception_catch := h }

/-- Modelled from the spec (§4.5): see `register_vm_init_callback`. -/
def register_monitor_wait_callback {H : Type} (s : CallbackSlots H) (h : Option H) : CallbackSlots H :=
  { s with monitor_wait := h }

/-- Modelled from the spec (§4.5): see `register_vm_init_callback`. -/
def register_monitor_waited_callback {H : Type} (s : CallbackSlots H) (h : Option H) : CallbackSlots H :=
  { s with monitor_waited := h }

/-- Modelled from the spec (§4.5): see `register_vm_init_callback`. -/
def register_monitor_contended_enter_callback {H : Type} (s : CallbackSlots H) (h : Option H) : CallbackSlots H :=
  { s with monitor_contended_enter := h }

/-- Modelled from the spec (§4.5): see `register_vm_init_callback` (the
source spells this registration function with a transposed name). -/
def register_monitor_contended_endered_callback {H : Type} (s : CallbackSlots H) (h : Option H) : CallbackSlots H :=
  { s with monitor_contended_entered := h }

/-- Modelled from the spec (§4.5): see `register_vm_init_callback`. -/
def register_field_access_callback {H : Type} (s : CallbackSlots H) (h : Option H) : CallbackSlots H :=
  { s with field_access := h }

/-- Modelled from the spec (§4.5): see `register_vm_init_callback`. -/
def register_field_modification_callback {H : Type} (s : CallbackSlots H) (h : Option H) : CallbackSlots H :=
  { s with field_modification := h }

/-- Modelled from the spec (§4.5): see `register_vm_init_callback`. -/
def register_garbage_collection_start {H : Type} (s : CallbackSlots H) (h : Option H) : CallbackSlots H :=
  { s with garbage_collection_start := h }

/-- Modelled from the spec (§4.5): see `register_vm_init_callback`. -/
def register_garbage_collection_finish {H : Type} (s : CallbackSlots H) (h : Option H) : CallbackSlots H :=
  { s with garbage_collection_finish := h }

/-- The slot of the registry belonging to one event kind. -/
def slotOf {H : Type} (s : CallbackSlots H) : VMEvent → Option H
  | .VMInit => s.vm_init
  | .VMStart => s.vm_start
  | .VMDeath => s.vm_death
  | .VMObjectAlloc => s.vm_object_alloc
  | .MethodEntry => s.method_entry
  | .MethodExit => s.method_exit
  | .ThreadStart => s.thread_start
  | .ThreadEnd => s.thread_end
  | .Exception => s.exception
  | .ExceptionCatch => s.exception_catch
  | .MonitorWait => s.monitor_wait
  | .MonitorWaited => s.monitor_waited
  | .MonitorContendedEnter => s.monitor_contended_enter
  | .MonitorContendedEntered => s.monitor_contended_entered
  | .FieldAccess => s.field_access
  | .FieldModification => s.field_modification
  | .GarbageCollectionStart => s.garbage_collection_start
  | .GarbageCollectionFinish => s.garbage_collection_finish

/-- The event-related state visible through this environment: the
process-wide callback slots and, on the native side, the per-event-kind
notification mode. -/
structure EnvState (H : Type) where
  slots : CallbackSlots H
  enabled : VMEvent → Bool

/-- Modelled from the spec (§4.5): a trampoline invocation for an event kind
reaches the registered handler exactly when the native runtime emits the
event (its notification mode is enabled) and a handler is currently
registered in that kind's slot; otherwise it is a no-op. -/
def dispatch {H : Type} (st : EnvState H) (event : VMEvent) : Option H :=
  if st.enabled event then slotOf st.slots event else none

/-- The native function-pointer table behind the environment handle.  Each
field models one function-pointer slot: `none` is a null pointer, and a
present value carries the behaviour the native side exhibits when called —
the status code it returns and the data it writes through out-parameters. -/
structure jvmtiInterface where
  GetVersionNumber : Option Int
  AddCapabilities : Option (jvmtiCapabilities → Int)
  GetCapabilities : Option jvmtiCapabilities
  SetEventCallbacks : Option Int
  SetEventNotificationMode : Option (VMEvent → Bool → Int)
  GetThreadInfo : Option (JavaThread → Int × Struct__jvmtiThreadInfo)

/-- `JVMTIEnvironment::get_version_number`: calls the native version query
(unwrapping its slot) and decodes the written word, reinterpreted as
unsigned, via `VersionNumber.from_u32`.  `none` models the panic on an
absent slot. -/
def get_version_number (env : jvmtiInterface) : Option VersionNumber :=
  match env.GetVersionNumber with
  | some version => some (VersionNumber.from_u32 (u32_of_i32 version))
  | none => none

/-- `JVMTIEnvironment::get_capabilities`: calls the native capability query
(unwrapping its slot) and converts the written bitfield back with
`Capabilities.from_native`.  `none` models the panic on an absent slot. -/
def get_capabilities (env : jvmtiInterface) : Option Capabilities :=
  match env.GetCapabilities with
  | some native_caps => some (Capabilities.from_native native_caps)
  | none => none

/-- `JVMTIEnvironment::add_capabilities`: converts the argument with
`to_native`, calls the native add (unwrapping its slot) and translates the
status; on success returns the result of a fresh `get_capabilities` query,
on failure the translated error.  `none` models the panic on an absent
slot (including the query's slot on the success path). -/
def add_capabilities (env : jvmtiInterface) (new_capabilities : Capabilities) :
    Option (Except NativeError Capabilities) :=
  let native_caps := new_capabilities.to_native
  match env.AddCapabilities with
  | some add => match wrap_error (add native_caps) with
    | .NoError => match get_capabilities env with
      | some caps => some (.ok caps)
      | none => none
    | err => some (.error err)
  | none => none

/-- Modelled from the spec (§4.2): the native environment's effective
capability set after an `AddCapabilities` call — on native failure the
existing capabilities are left unchanged; on success the native runtime
determines the resulting set (`post`). -/
def native_caps_after_add (pre post : jvmtiCapabilities) (code : Int) : jvmtiCapabilities :=
  if code = 0 then post else pre

/-- `JVMTIEnvironment::set_event_callbacks`: registers every handler of the
supplied configuration into the process-wide slots (one `register_*` call
per event kind, in source order), then installs the composed native table
via the native call (unwrapping its slot) and translates the status:
`none` on success, the translated error otherwise.  The slots remain as
newly set in either case.  `none` models the panic on an absent slot. -/
def set_event_callbacks {H : Type} (env : jvmtiInterface) (st : EnvState H)
    (callbacks : EventCallbacks H) : Option (EnvState H × Option NativeError) :=
  let s1 := register_vm_init_callback st.slots callbacks.vm_init
  let s2 := register_vm_start_callback s1 callbacks.vm_start
  let s3 := register_vm_death_callback s2 callbacks.vm_death
  let s4 := register_vm_object_alloc_callback s3 callbacks.vm_object_alloc
  let s5 := register_method_entry_callback s4 callbacks.method_entry
  let s6 := register_method_exit_callback s5 callbacks.method_exit
  let s7 := register_thread_start_callback s6 callbacks.thread_start
  let s8 := register_thread_end_callback s7 callbacks.thread_end
  let s9 := register_exception_callback s8 callbacks.exception
  let s10 := register_exception_catch_callback s9 callbacks.exception_catch
  let s11 := register_monitor_wait_callback s10 callbacks.monitor_wait
  let s12 := register_monitor_waited_callback s11 callbacks.monitor_waited
  let s13 := register_monitor_contended_enter_callback s12 callbacks.monitor_contended_enter
  let s14 := register_monitor_contended_endered_callback s13 callbacks.monitor_contended_entered
  let s15 := register_field_access_callback s14 callbacks.field_access
  let s16 := register_field_modification_callback s15 callbacks.field_modification
  let s17 := register_garbage_collection_start s16 callbacks.garbage_collection_start
  let s18 := register_garbage_collection_finish s17 callbacks.garbage_collection_finish
  match env.SetEventCallbacks with
  | some code => match wrap_error code with
    | .NoError => some ({ st with slots := s18 }, none)
    | err => some ({ st with slots := s18 }, some err)
  | none => none

/-- `JVMTIEnvironment::set_event_notification_mode`: calls the native
mode toggle (unwrapping its slot) and translates the status: `none` on
success, the translated error otherwise.  On native success the native
runtime records the new per-event mode (modelled from spec §4.5/glossary);
the callback slots are never touched.  `none` models the panic on an
absent slot. -/
def set_event_notification_mode {H : Type} (env : jvmtiInterface) (st : EnvState H)
    (event : VMEvent) (mode : Bool) : Option (EnvState H × Option NativeError) :=
  match env.SetEventNotificationMode with
  | some toggle => match wrap_error (toggle event mode) with
    | .NoError => some ({ st with enabled := Function.update st.enabled event mode }, none)
    | err => some (st, some err)
  | none => none

/-- `JVMTIEnvironment::get_thread_info`: if the native function table has no
`GetThreadInfo` implementation bound, fails with the `NoError` sentinel;
otherwise calls it and, on a zero status, assembles the `Thread` snapshot
from the written record (decoded name, priority reinterpreted as unsigned,
daemon flag compared against zero, the input handle wrapped into a
`ThreadId`); on a nonzero status propagates the translated error. -/
def get_thread_info (env : jvmtiInterface) (thread_id : JavaThread) :
    Except NativeError Thread :=
  match env.GetThreadInfo with
  | some func =>
    let r := func thread_id
    match wrap_error r.1 with
    | .NoError => .ok
        { id := { native_id := thread_id }
          name := stringify r.2.name
          priority := u32_of_i32 r.2.priority
          is_daemon := if r.2.is_daemon > 0 then true else false }
    | err => .error err
  | none => .error .NoError

/-- The table the spec's words prescribe for `set_event_callbacks`: the slot
of every event kind holds exactly the handler the supplied configuration
carries for that kind (total replacement).  Stated from the spec for
comparison with the chain of `register_*` calls the source performs. -/
def spec_replacement_slots {H : Type} (callbacks : EventCallbacks H) : CallbackSlots H :=
  { vm_init := callbacks.vm_init
    vm_start := callbacks.vm_start
    vm_death := callbacks.vm_death
    vm_object_alloc := callbacks.vm_object_alloc
    method_entry := callbacks.method_entry
    method_exit := callbacks.method_exit
    thread_start := callbacks.thread_start
    thread_end := callbacks.thread_end
    exception := callbacks.exception
    exception_catch := callbacks.exception_catch
    monitor_wait := callbacks.monitor_wait
    monitor_waited := callbacks.monitor_waited
    monitor_contended_enter := callbacks.monitor_contended_enter
    monitor_contended_entered := callbacks.monitor_contended_entered
    field_access := callbacks.field_access
    field_modification := callbacks.field_modification
    garbage_collection_start := callbacks.garbage_collection_start
    garbage_collection_finish := callbacks.garbage_collection_finish }

instance : DecidableEq Capabilities := fun a b =>
  match a, b with
  | ⟨fa⟩, ⟨fb⟩ => decidable_of_iff (fa = fb) (by rw [Capabilities.mk.injEq])

/-- Witness fixture: a native table exposing only the version query. -/
def envVersion : jvmtiInterface :=
  { GetVersionNumber := some 66051
    AddCapabilities := none
    GetCapabilities := none
    SetEventCallbacks := none
    SetEventNotificationMode := none
    GetThreadInfo := none }

/-- Witness fixture: a native table with every function-pointer slot null. -/
def envAbsent : jvmtiInterface :=
  { GetVersionNumber := none
    AddCapabilities := none
    GetCapabilities := none
    SetEventCallbacks := none
    SetEventNotificationMode := none
    GetThreadInfo := none }

/-- Witness fixture: the thread-info record for the spec's happy path. -/
def threadInfoMain : Struct__jvmtiThreadInfo :=
  { name := some "main"
    priority := 5
    is_daemon := 0
    thread_group := 0
    context_class_loader := 0 }

/-- Witness fixture: a native thread query that succeeds with
`threadInfoMain`. -/
def threadBehaviorOk : JavaThread → Int × Struct__jvmtiThreadInfo :=
  fun _ => (0, threadInfoMain)

/-- Witness fixture: a native thread query that fails with status 100. -/
def threadBehaviorErr : JavaThread → Int × Struct__jvmtiThreadInfo :=
  fun _ => (100, threadInfoMain)

/-- Witness fixture: a native table whose thread query succeeds. -/
def envThreadOk : jvmtiInterface :=
  { envAbsent with GetThreadInfo := some threadBehaviorOk }

/-- Witness fixture: a native table whose thread query fails. -/
def envThreadErr : jvmtiInterface :=
  { envAbsent with GetThreadInfo := some threadBehaviorErr }

/-- Witness fixture: a native table whose capability add succeeds and whose
capability query reports the bit pattern 7. -/
def envAddSeven : jvmtiInterface :=
  { envAbsent with AddCapabilities := some (fun _ => 0), GetCapabilities := some 7 }

/-- Witness fixture: a native table whose capability add succeeds and whose
capability query reports the bit pattern 3. -/
def envAddThree : jvmtiInterface :=
  { envAbsent with AddCapabilities := some (fun _ => 0), GetCapabilities := some 3 }

/-- Witness fixture: a native table whose capability add succeeds and whose
capability query reports the empty bit pattern. -/
def envAddZero : jvmtiInterface :=
  { envAbsent with AddCapabilities := some (fun _ => 0), GetCapabilities := some 0 }

/-- Witness fixture: a native table whose capability add fails with the
out-of-memory status 110. -/
def envAddErr : jvmtiInterface :=
  { envAbsent with AddCapabilities := some (fun _ => 110) }

/-- Witness fixture: a native table whose callback installation succeeds. -/
def envCb : jvmtiInterface :=
  { envAbsent with SetEventCallbacks := some 0 }

/-- Witness fixture: a registry with every slot empty. -/
def slotsNone : CallbackSlots Nat :=
  { vm_init := none, vm_start := none, vm_death := none, vm_object_alloc := none
    method_entry := none, method_exit := none, thread_start := none, thread_end := none
    exception := none, exception_catch := none, monitor_wait := none, monitor_waited := none
    monitor_contended_enter := none, monitor_contended_entered := none
    field_access := none, field_modification := none
    garbage_collection_start := none, garbage_collection_finish := none }

/-- Witness fixture: the initial event state — nothing registered, nothing
enabled. -/
def stEmpty : EnvState Nat :=
  { slots := slotsNone, enabled := fun _ => false }

/-- Witness fixture: a configuration registering handlers for two kinds. -/
def cbSample : EventCallbacks Nat :=
  { vm_init := some 1, vm_start := none, vm_death := none, vm_object_alloc := none
    method_entry := none, method_exit := none, thread_start := some 2, thread_end := none
    exception := none, exception_catch := none, monitor_wait := none, monitor_waited := none
    monitor_contended_enter := none, monitor_contended_entered := none
    field_access := none, field_modification := none
    garbage_collection_start := none, garbage_collection_finish := none }

theorem packBits_testBit (l : List Bool) (i : Nat) :
    (packBits l).testBit i = l.getD i false := by
  induction l generalizing i with
  | nil => simp [packBits]
  | cons b bs ih =>
    cases i with
    | zero =>
      have hmod : (packBits (b :: bs)) % 2 = (if b then 1 else 0) := by
        simp only [packBits]
        cases b <;> simp [Nat.add_mul_mod_self_left]
      rw [Nat.testBit_zero, hmod]
      cases b <;> simp
    | succ i =>
      have hdiv : (packBits (b :: bs)) / 2 = packBits bs := by
        simp only [packBits]
        cases b with
        | false => simp
        | true =>
          simp
          omega
      rw [Nat.testBit_succ, hdiv, ih]
      simp

theorem to_native_testBit (c : Capabilities) (i : Fin numCapFlags) :
    c.to_native.testBit i.val = c.flags i := by
  rw [Capabilities.to_native, packBits_testBit]
  have h : i.val < (List.ofFn c.flags).length := by
    rw [List.length_ofFn]
    exact i.isLt
  rw [List.getD_eq_getElem?_getD, List.getElem?_eq_getElem h]
  rw [List.getElem_ofFn]
  simp only [Fin.eta]
  rfl

theorem to_native_testBit_high (c : Capabilities) (i : Nat) :
    c.to_native.testBit (numCapFlags + i) = false := by
  rw [Capabilities.to_native, packBits_testBit]
  have h : (List.ofFn c.flags).length ≤ numCapFlags + i := by
    rw [List.length_ofFn]
    exact Nat.le_add_right _ _
  rw [List.getD_eq_getElem?_getD, List.getElem?_eq_none h]
  rfl

theorem from_native_to_native (c : Capabilities) :
    Capabilities.from_native (Capabilities.to_native c) = c := by
  cases c with
  | mk f =>
    simp only [Capabilities.from_native, Capabilities.mk.injEq]
    funext i
    exact to_native_testBit ⟨f⟩ i

theorem wrap_error_ne_noError {code : Int} (h : code ≠ 0) :
    wrap_error code ≠ NativeError.NoError := by
  unfold wrap_error
  rw [if_neg h]
  repeat' split
  all_goals decide

theorem wrap_error_eq_noError_iff (code : Int) :
    wrap_error code = NativeError.NoError ↔ code = 0 := by
  constructor
  · intro h
    by_contra hne
    exact wrap_error_ne_noError hne h
  · intro h
    subst h
    rfl

theorem wrap_error_unknown {code : Int} (h : code ∉ definedCodes) :
    wrap_error code = NativeError.UnknownError := by
  simp [definedCodes, definedCodePairs] at h
  obtain ⟨h0, h98, h99, h100, h110, h112, h113, h115, h116⟩ := h
  simp [wrap_error, h0, h98, h99, h100, h110, h112, h113, h115, h116]

theorem wrap_error_classified (code : Int) :
    (code, wrap_error code) ∈ definedCodePairs ∨ wrap_error code = NativeError.UnknownError := by
  by_cases h : code ∈ definedCodes
  · left
    simp [definedCodes, definedCodePairs] at h
    rcases h with h | h | h | h | h | h | h | h | h <;> subst h <;> decide
  · right
    exact wrap_error_unknown h

theorem and_two_pow_sub_one (n k : Nat) : n &&& (2 ^ k - 1) = n % 2 ^ k := by
  apply Nat.eq_of_testBit_eq
  intro i
  simp [Nat.testBit_and, Nat.testBit_mod_two_pow, Bool.and_comm]

theorem from_u32_eq (v : Nat) :
    VersionNumber.from_u32 v = ⟨v / 2 ^ 16 % 2 ^ 12, v / 2 ^ 8 % 2 ^ 8, v % 2 ^ 8⟩ := by
  have h12 : (0xFFF : Nat) = 2 ^ 12 - 1 := by norm_num
  have h8 : (0xFF : Nat) = 2 ^ 8 - 1 := by norm_num
  simp only [VersionNumber.from_u32, Nat.shiftRight_eq_div_pow, h12, h8,
    and_two_pow_sub_one]

theorem u32_of_i32_lt (w : Int) : u32_of_i32 w < 2 ^ 32 := by
  have h : (2 : Int) ^ 32 = 4294967296 := by norm_num
  have h2 : (2 : Nat) ^ 32 = 4294967296 := by norm_num
  simp only [u32_of_i32, h, h2]
  omega

/-- Claim C6: capability round-trip — for every capability set `C`,
`from_native (to_native C) = C`: the conversion to the native bitfield and
back is lossless for all defined bits, and every unspecified/reserved bit
(any position at or above `numCapFlags`) is written as zero by
`to_native`. -/
theorem capability_round_trip :
    ∀ c : Capabilities, Capabilities.from_native (Capabilities.to_native c) = c ∧
      ∀ i : Nat, (Capabilities.to_native c).testBit (numCapFlags + i) = false :=
  fun c => ⟨from_native_to_native c, fun i => to_native_testBit_high c i⟩

/-- Claim C7: `wrap_error` is total over all integer status codes: it maps
`0` to `NoError`, every other defined code to its named variant, and any
unrecognized code to the catch-all unknown variant; being a total pure
function, it never fails for any input and has no side effects. -/
theorem wrap_error_total :
    wrap_error 0 = NativeError.NoError ∧
    (∀ code : Int,
      (code, wrap_error code) ∈ definedCodePairs ∨ wrap_error code = NativeError.UnknownError) ∧
    (∀ code : Int, code ∉ definedCodes → wrap_error code = NativeError.UnknownError) ∧
    (∀ p ∈ definedCodePairs, wrap_error p.1 = p.2) := by
  refine ⟨rfl, wrap_error_classified, fun code h => wrap_error_unknown h, by decide⟩

/-- Witness for claim C7 at the concrete codes 424242 (unrecognized) and
100 (defined). -/
theorem wrap_error_total_witness :
    wrap_error 424242 = NativeError.UnknownError ∧
      wrap_error 100 = NativeError.NullPointer :=
  ⟨wrap_error_total.2.2.1 424242 (by decide),
   wrap_error_total.2.2.2 (100, NativeError.NullPointer) (by decide)⟩

/-- Claim C9: `get_version_number` has no failure mode at the typed level:
for every environment whose native version query is bound, it returns the
`VersionNumber` obtained by pure decoding of the packed 32-bit version word
via `from_u32`, and `from_u32` decodes any 32-bit input into some
major/minor/micro triple (by the documented shift/mask layout) without
validation or error. -/
theorem get_version_number_pure_decode :
    (∀ (env : jvmtiInterface) (w : Int), env.GetVersionNumber = some w →
      get_version_number env = some (VersionNumber.from_u32 (u32_of_i32 w))) ∧
    (∀ v : Nat, VersionNumber.from_u32 v =
      ⟨v / 2 ^ 16 % 2 ^ 12, v / 2 ^ 8 % 2 ^ 8, v % 2 ^ 8⟩) ∧
    (∀ w : Int, u32_of_i32 w < 2 ^ 32) := by
  refine ⟨?_, from_u32_eq, u32_of_i32_lt⟩
  intro env w h
  simp [get_version_number, h]

/-- Witness for claim C9 at the concrete environment `envVersion`, whose
native version word 66051 encodes major 1, minor 2, micro 3. -/
theorem get_version_number_pure_decode_witness :
    get_version_number envVersion = some ⟨1, 2, 3⟩ := by
  have h := get_version_number_pure_decode.1 envVersion 66051 rfl
  rw [h]
  decide

/-- Claim C2: for every thread handle, if the native function table has no
`GetThreadInfo` implementation bound (the function-pointer slot is absent),
`get_thread_info` returns an error whose value is the `NoError` sentinel —
the success sentinel reused as the error signal for the
unsupported-operation case. -/
theorem get_thread_info_absent_slot :
    ∀ (env : jvmtiInterface) (tid : JavaThread), env.GetThreadInfo = none →
      get_thread_info env tid = .error NativeError.NoError := by
  intro env tid h
  simp [get_thread_info, h]

/-- Witness for claim C2 at the concrete environment `envAbsent`. -/
theorem get_thread_info_absent_slot_witness :
    get_thread_info envAbsent 7 = .error NativeError.NoError :=
  get_thread_info_absent_slot envAbsent 7 rfl

/-- Claim C3: on native success, `get_thread_info` returns a `Thread` whose
name is the owned string decoded from the raw name buffer (an empty or
absent buffer decodes to the empty string), whose priority is the copied
native priority, whose `is_daemon` is true exactly when the native daemon
flag is nonzero, and whose id wraps the input handle; on a nonzero native
status it returns the translated `NativeError` and no partial `Thread` is
produced. -/
theorem get_thread_info_success :
    (∀ (env : jvmtiInterface) (f : JavaThread → Int × Struct__jvmtiThreadInfo)
       (tid : JavaThread), env.GetThreadInfo = some f →
      (wrap_error (f tid).1 = NativeError.NoError →
        get_thread_info env tid = .ok
          { id := { native_id := tid }
            name := stringify (f tid).2.name
            priority := u32_of_i32 (f tid).2.priority
            is_daemon := decide ((f tid).2.is_daemon ≠ 0) }) ∧
      (wrap_error (f tid).1 ≠ NativeError.NoError →
        get_thread_info env tid = .error (wrap_error (f tid).1))) ∧
    stringify none = "" ∧ stringify (some "") = "" := by
  refine ⟨?_, rfl, rfl⟩
  intro env f tid h
  constructor
  · intro hok
    simp only [get_thread_info, h, hok]
    have hd : (if (f tid).2.is_daemon > 0 then true else false) =
        decide ((f tid).2.is_daemon ≠ 0) := by
      cases hdm : (f tid).2.is_daemon <;> simp
    rw [hd]
  · intro herr
    cases hE : wrap_error (f tid).1 <;> simp_all [get_thread_info, h]

/-- Witness for claim C3 at the spec's happy path ("main", priority 5,
daemon flag 0) and at a failing status 100. -/
theorem get_thread_info_success_witness :
    get_thread_info envThreadOk 7 =
      .ok { id := { native_id := 7 }, name := "main", priority := 5, is_daemon := false } ∧
    get_thread_info envThreadErr 7 = .error NativeError.NullPointer := by
  constructor
  · have h := (get_thread_info_success.1 envThreadOk threadBehaviorOk 7 rfl).1 (by decide)
    rw [h]
    rfl
  · have h := (get_thread_info_success.1 envThreadErr threadBehaviorErr 7 rfl).2 (by decide)
    rw [h]
    rfl

/-- Claim C1: `set_event_callbacks` performs a total (not incremental)
replacement of the process-wide callback table: the resulting slots are
exactly `spec_replacement_slots callbacks` (for every event kind the slot
holds the handler of the supplied configuration, so a kind with an absent
handler becomes unset even if previously set); the call returns `none` on
native success and `some` of the translated `NativeError` on native
failure, and in the failure case the slots remain as newly set (no
rollback). -/
theorem set_event_callbacks_total_replacement :
    ∀ (H : Type) (env : jvmtiInterface) (st : EnvState H)
      (callbacks : EventCallbacks H) (code : Int), env.SetEventCallbacks = some code →
      set_event_callbacks env st callbacks =
        some ({ slots := spec_replacement_slots callbacks, enabled := st.enabled },
          if wrap_error code = NativeError.NoError then none else some (wrap_error code)) := by
  intro H env st callbacks code h
  obtain ⟨slots, enabled⟩ := st
  cases hE : wrap_error code <;>
    simp [set_event_callbacks, h, hE, spec_replacement_slots,
      register_vm_init_callback, register_vm_start_callback, register_vm_death_callback,
      register_vm_object_alloc_callback, register_method_entry_callback,
      register_method_exit_callback, register_thread_start_callback,
      register_thread_end_callback, register_exception_callback,
      register_exception_catch_callback, register_monitor_wait_callback,
      register_monitor_waited_callback, register_monitor_contended_enter_callback,
      register_monitor_contended_endered_callback, register_field_access_callback,
      register_field_modification_callback, register_garbage_collection_start,
      register_garbage_collection_finish]

/-- Witness for claim C1: installing `cbSample` over the empty state through
a native table that accepts the installation. -/
theorem set_event_callbacks_total_replacement_witness :
    set_event_callbacks envCb stEmpty cbSample =
      some ({ slots := spec_replacement_slots cbSample, enabled := stEmpty.enabled }, none) := by
  have h := set_event_callbacks_total_replacement Nat envCb stEmpty cbSample 0 rfl
  simpa using h

/-- Claim C10: of the six public façade operations, only `get_thread_info`
tolerates an absent native function-pointer slot (failing with the `NoError`
sentinel); `get_version_number`, `add_capabilities`, `get_capabilities`,
`set_event_callbacks` and `set_event_notification_mode` each unwrap their
slot, so on an environment whose corresponding native table entry is absent
these five operations panic (modelled as `none`) instead of returning a
typed error. -/
theorem absent_slot_behaviour :
    ∀ (H : Type) (env : jvmtiInterface) (st : EnvState H)
      (new_capabilities : Capabilities) (callbacks : EventCallbacks H)
      (event : VMEvent) (mode : Bool) (tid : JavaThread),
      (env.GetVersionNumber = none → get_version_number env = none) ∧
      (env.AddCapabilities = none → add_capabilities env new_capabilities = none) ∧
      (env.GetCapabilities = none → get_capabilities env = none) ∧
      (env.SetEventCallbacks = none → set_event_callbacks env st callbacks = none) ∧
      (env.SetEventNotificationMode = none →
        set_event_notification_mode env st event mode = none) ∧
      (env.GetThreadInfo = none → get_thread_info env tid = .error NativeError.NoError) := by
  intro H env st new_capabilities callbacks event mode tid
  refine ⟨?_, ?_, ?_, ?_, ?_, ?_⟩ <;> intro h
  · simp [get_version_number, h]
  · simp [add_capabilities, h]
  · simp [get_capabilities, h]
  · simp [set_event_callbacks, h]
  · simp [set_event_notification_mode, h]
  · simp [get_thread_info, h]

/-- Witness for claim C10 at the all-null native table `envAbsent`. -/
theorem absent_slot_behaviour_witness :
    get_version_number envAbsent = none ∧
    add_capabilities envAbsent Capabilities.new = none ∧
    get_capabilities envAbsent = none ∧
    set_event_callbacks envAbsent stEmpty cbSample = none ∧
    set_event_notification_mode envAbsent stEmpty VMEvent.VMInit true = none ∧
    get_thread_info envAbsent 3 = .error NativeError.NoError := by
  obtain ⟨h1, h2, h3, h4, h5, h6⟩ :=
    absent_slot_behaviour Nat envAbsent stEmpty Capabilities.new cbSample VMEvent.VMInit true 3
  exact ⟨h1 rfl, h2 rfl, h3 rfl, h4 rfl, h5 rfl, h6 rfl⟩

/-- Claim C4: on native success `add_capabilities` returns the actual
resulting capability set as freshly queried from the environment after the
mutation — the conversion of whatever bit pattern the query reports, which
need not be the computed union of the old set and the argument (third
conjunct); on native failure it returns the translated `NativeError` and
the environment's existing capabilities are left unchanged. -/
theorem add_capabilities_fresh_query :
    (∀ (env : jvmtiInterface) (add : jvmtiCapabilities → Int)
       (queried : jvmtiCapabilities) (new_capabilities : Capabilities),
      env.AddCapabilities = some add → env.GetCapabilities = some queried →
      wrap_error (add new_capabilities.to_native) = NativeError.NoError →
      add_capabilities env new_capabilities =
        some (.ok (Capabilities.from_native queried))) ∧
    (∀ (env : jvmtiInterface) (add : jvmtiCapabilities → Int)
       (new_capabilities : Capabilities),
      env.AddCapabilities = some add →
      wrap_error (add new_capabilities.to_native) ≠ NativeError.NoError →
      add_capabilities env new_capabilities =
        some (.error (wrap_error (add new_capabilities.to_native))) ∧
      ∀ pre post : jvmtiCapabilities,
        native_caps_after_add pre post (add new_capabilities.to_native) = pre) ∧
    (∃ (env : jvmtiInterface) (new_capabilities : Capabilities)
       (pre : jvmtiCapabilities),
      add_capabilities env new_capabilities = some (.ok (Capabilities.from_native 0)) ∧
      Capabilities.from_native 0 ≠
        Capabilities.from_native (pre ||| new_capabilities.to_native)) := by
  refine ⟨?_, ?_, ?_⟩
  · intro env add queried new_capabilities h1 h2 hok
    simp [add_capabilities, h1, hok, get_capabilities, h2]
  · intro env add new_capabilities h1 herr
    constructor
    · cases hE : wrap_error (add new_capabilities.to_native) <;>
        simp_all [add_capabilities, h1]
    · intro pre post
      have hz : add new_capabilities.to_native ≠ 0 := by
        intro h0
        exact herr (by rw [h0]; rfl)
      rw [native_caps_after_add, if_neg hz]
  · refine ⟨envAddZero, Capabilities.new, 1, ?_, ?_⟩
    · rfl
    · decide

/-- Witness for claim C4: a successful add through `envAddSeven` surfaces
the freshly queried pattern 7, and a failing add through `envAddErr`
surfaces the translated error while leaving the native set unchanged. -/
theorem add_capabilities_fresh_query_witness :
    add_capabilities envAddSeven Capabilities.new =
      some (.ok (Capabilities.from_native 7)) ∧
    add_capabilities envAddErr Capabilities.new =
      some (.error NativeError.OutOfMemory) ∧
    native_caps_after_add 5 9 110 = 5 := by
  have h1 := add_capabilities_fresh_query.1 envAddSeven (fun _ => 0) 7
    Capabilities.new rfl rfl (by decide)
  have h2 := add_capabilities_fresh_query.2.1 envAddErr (fun _ => 110)
    Capabilities.new rfl (by decide)
  refine ⟨h1, ?_, ?_⟩
  · have := h2.1
    simpa using this
  · simpa using h2.2 5 9

/-- Claim C5: union law (monotonicity of add) — for every prior native
capability set and every argument set, if the native add succeeds and the
native runtime honours its retention contract (every bit set beforehand or
requested stays set in the queried result), then every flag true in the
prior typed set or in the argument is true in the capability set the call
returns: no true flag is ever cleared by an add. -/
theorem add_capabilities_union_law :
    ∀ (env : jvmtiInterface) (add : jvmtiCapabilities → Int)
      (queried pre : jvmtiCapabilities) (P new_capabilities : Capabilities),
      env.AddCapabilities = some add → env.GetCapabilities = some queried →
      wrap_error (add new_capabilities.to_native) = NativeError.NoError →
      P = Capabilities.from_native pre →
      (∀ j : Fin numCapFlags,
        (pre.testBit j.val || new_capabilities.to_native.testBit j.val) = true →
        queried.testBit j.val = true) →
      ∀ result : Capabilities,
        add_capabilities env new_capabilities = some (.ok result) →
        ∀ i : Fin numCapFlags,
          (P.flags i || new_capabilities.flags i) = true → result.flags i = true := by
  intro env add queried pre P new_capabilities h1 h2 hok hP hcontract result hres i hflag
  have hres2 : Capabilities.from_native queried = result := by
    simp [add_capabilities, h1, hok, get_capabilities, h2] at hres
    exact hres
  rw [← hres2]
  show queried.testBit i.val = true
  apply hcontract i
  subst hP
  have hbit : new_capabilities.to_native.testBit i.val = new_capabilities.flags i :=
    to_native_testBit new_capabilities i
  simpa [Capabilities.from_native, hbit] using hflag

/-- Witness for claim C5 with prior native set 1, argument set with exactly
bit 1, and queried result 3: the flag at bit 1 survives in the returned
set. -/
theorem add_capabilities_union_law_witness :
    (Capabilities.from_native 3).flags ⟨1, by decide⟩ = true := by
  have h := add_capabilities_union_law envAddThree (fun _ => 0) 3 1
    (Capabilities.from_native 1) (Capabilities.from_native 2) rfl rfl
    (by decide) rfl (by decide) (Capabilities.from_native 3) rfl
    ⟨1, by decide⟩ (by decide)
  exact h

/-- Claim C8: `set_event_notification_mode` is orthogonal to callback
registration — toggling the notification mode neither installs nor removes
any callback slot (first conjunct); an event produces a handler invocation
exactly when it is both enabled and has a registered callback (second
conjunct); and the order in which `set_event_callbacks` and
`set_event_notification_mode` are called does not affect the resulting
state or the returned values (third conjunct). -/
theorem notification_mode_orthogonal :
    ∀ (H : Type) (env : jvmtiInterface) (st : EnvState H) (event : VMEvent)
      (mode : Bool),
      ((set_event_notification_mode env st event mode).map fun p => p.1.slots) =
        (env.SetEventNotificationMode.map fun _ => st.slots) ∧
      (∀ h : H, dispatch st event = some h ↔
        (st.enabled event = true ∧ slotOf st.slots event = some h)) ∧
      (∀ callbacks : EventCallbacks H,
        ((set_event_callbacks env st callbacks).bind fun p =>
            (set_event_notification_mode env p.1 event mode).map fun q =>
              (q.1, p.2, q.2)) =
        ((set_event_notification_mode env st event mode).bind fun q =>
            (set_event_callbacks env q.1 callbacks).map fun p =>
              (p.1, p.2, q.2))) := by
  intro H env st event mode
  obtain ⟨slots, enabled⟩ := st
  refine ⟨?_, ?_, ?_⟩
  · rcases h : env.SetEventNotificationMode with _ | toggle
    · simp [set_event_notification_mode, h]
    · cases hE : wrap_error (toggle event mode) <;>
        simp [set_event_notification_mode, h, hE]
  · intro hh
    by_cases he : enabled event = true <;> simp [dispatch, he]
  · intro callbacks
    rcases h1 : env.SetEventCallbacks with _ | code <;>
      rcases h2 : env.SetEventNotificationMode with _ | toggle
    · simp [set_event_callbacks, set_event_notification_mode, h1, h2]
    · cases hE2 : wrap_error (toggle event mode) <;>
        simp [set_event_callbacks, set_event_notification_mode, h1, h2, hE2]
    · cases hE1 : wrap_error code <;>
        simp [set_event_callbacks, set_event_notification_mode, h1, h2, hE1]
    · cases hE1 : wrap_error code <;> cases hE2 : wrap_error (toggle event mode) <;>
        simp [set_event_callbacks, set_event_notification_mode, h1, h2, hE1, hE2]

end Jvmti
